/-
  Verification of the mini-issue-tracker backend (FastAPI/SQLAlchemy service).

  Shallow embedding of the core layers:
  - data model  (backend/app/models/{user,project,issue}.py)
  - repositories (backend/app/repositories/{base,user,project,issue}.py)
  - services     (backend/app/services/{auth,project,issue}.py)
  - auth helpers (backend/app/auth/{password_handler,token_handler}.py,
                  backend/app/auth_deps.py)

  Database rows are Lean structures, the database is lists of rows, time is
  an abstract Nat tick, and the external crypto libraries (passlib bcrypt,
  python-jose JWT) are given symbolic models described at their definitions.
-/
import Mathlib

namespace MiniIssueTracker

/-- Embeds `IssueStatus` enum from models/issue.py: Open, In Progress, Closed. -/
inductive IssueStatus
  | OPEN
  | IN_PROGRESS
  | CLOSED
deriving DecidableEq, Repr

/-- Embeds `IssuePriority` enum from models/issue.py: Low, Medium, High. -/
inductive IssuePriority
  | LOW
  | MEDIUM
  | HIGH
deriving DecidableEq, Repr

/-- Symbolic model of a bcrypt digest string (passlib is an external
collaborator).  A well-formed digest embeds its salt and is a one-way image
of the hashed plaintext: we keep the pair `(salt, content)` as the symbolic
image, since bcrypt verification recomputes from the embedded salt and
compares.  `malformed raw` stands for any string that is not a recognizable
bcrypt digest. -/
inductive BcryptDigest
  | wellFormed (salt : Nat) (content : String)
  | malformed (raw : String)
deriving DecidableEq, Repr

/-- Row of the `users` table (models/user.py). -/
structure User where
  id : Nat
  name : String
  email : String
  hashed_password : BcryptDigest
deriving DecidableEq, Repr

/-- Row of the `projects` table (models/project.py).  `updated_at` has no
server default and is only populated by `onupdate=func.now()`, hence
`Option Nat`. -/
structure Project where
  id : Nat
  name : String
  description : Option String
  created_by : Nat
  created_at : Nat
  updated_at : Option Nat
deriving DecidableEq, Repr

/-- Row of the `issues` table (models/issue.py).  `updated_at` has both a
server default and `onupdate=func.now()`, hence plain `Nat`. -/
structure Issue where
  id : Nat
  project_id : Nat
  title : String
  description : Option String
  status : IssueStatus
  priority : IssuePriority
  created_by : Nat
  created_at : Nat
  updated_at : Nat
deriving DecidableEq, Repr

/-- The relational store: one list of rows per table. -/
structure Database where
  users : List User
  projects : List Project
  issues : List Issue
deriving Repr

/-- Error taxonomy of utils/exceptions.py, plus the two non-HTTP Python
exceptions that the service code can let escape: `valueError` for the
passlib error on an unidentifiable hash, and `attributeError` for reading
`project.created_by` when the project lookup returned `None`
(services/issue.py accesses the parent project without a `None` check).
Each HTTP error carries only its human-readable detail string — no entity
data. -/
inductive AppError
  | notFound (detail : String)
  | forbidden (detail : String)
  | unauthorized (detail : String)
  | conflict (detail : String)
  | valueError (msg : String)
  | attributeError
deriving DecidableEq, Repr

/-- Embeds `BaseRepository.get_by_id` for projects:
`SELECT * FROM projects WHERE id = {id} LIMIT 1`. -/
def projectRepository.get_by_id (db : Database) (id : Nat) : Option Project :=
  db.projects.find? (fun p => p.id == id)

/-- Embeds `BaseRepository.get_by_id` for issues. -/
def issueRepository.get_by_id (db : Database) (id : Nat) : Option Issue :=
  db.issues.find? (fun i => i.id == id)

/-- Embeds `UserRepository.get_by_email`:
`SELECT * FROM users WHERE email = ? LIMIT 1`. -/
def userRepository.get_by_email (db : Database) (email : String) : Option User :=
  db.users.find? (fun u => u.email == email)

/-- Descending order on `created_at`, the `ORDER BY issues.created_at DESC`
of IssueRepository.get_project_issues. -/
def createdDesc (a b : Issue) : Prop :=
  b.created_at ≤ a.created_at

instance : DecidableRel createdDesc :=
  fun a b => inferInstanceAs (Decidable (b.created_at ≤ a.created_at))

instance : IsTotal Issue createdDesc :=
  ⟨fun a b => Nat.le_total b.created_at a.created_at⟩

instance : IsTrans Issue createdDesc :=
  ⟨fun _ _ _ hab hbc => Nat.le_trans hbc hab⟩

/-- Embeds `IssueRepository.get_project_issues`: filter by project, optionally by
status and priority (AND of the provided filters), then order by
`created_at` descending.  A SQL `ORDER BY` returns some ordering of the
matching rows that respects the key; we model it with insertion sort on
`createdDesc`. -/
def issueRepository.get_project_issues (db : Database) (project_id : Nat)
    (status : Option IssueStatus) (priority : Option IssuePriority) : List Issue :=
  let q := db.issues.filter (fun i => i.project_id == project_id)
  let q := match status with
    | some s => q.filter (fun i : Issue => i.status == s)
    | none => q
  let q := match priority with
    | some p => q.filter (fun i : Issue => i.priority == p)
    | none => q
  q.insertionSort createdDesc

/-- Partial-update payload for projects (schemas/project.py `ProjectUpdate`,
all fields `Optional`).  The double `Option` mirrors pydantic's unset
tracking: `none` = field absent from the request, `some none` = field sent
with an explicit JSON null, `some (some v)` = field sent with value `v`.
`model_dump(exclude_unset=True)` keeps exactly the fields whose outer layer
is `some`. -/
structure ProjectUpdate where
  name : Option (Option String) := none
  description : Option (Option String) := none
deriving DecidableEq, Repr

/-- Partial-update payload for issues (schemas/issue.py `IssueUpdate`). -/
structure IssueUpdate where
  title : Option (Option String) := none
  description : Option (Option String) := none
  status : Option (Option IssueStatus) := none
  priority : Option (Option IssuePriority) := none
deriving DecidableEq, Repr

/-- The field loop of `BaseRepository.update` applied to a project: for each
field in `model_dump(exclude_unset=True)`, `setattr` only when the value
`is not None`.  So a field is written iff it was sent with a non-null
value. -/
def applyProjectUpdate (project : Project) (u : ProjectUpdate) : Project :=
  let project := match u.name with
    | some (some v) => { project with name := v }
    | _ => project
  match u.description with
  | some (some v) => { project with description := some v }
  | _ => project

/-- The field loop of `BaseRepository.update` applied to an issue. -/
def applyIssueUpdate (issue : Issue) (u : IssueUpdate) : Issue :=
  let issue := match u.title with
    | some (some v) => { issue with title := v }
    | _ => issue
  let issue := match u.description with
    | some (some v) => { issue with description := some v }
    | _ => issue
  let issue := match u.status with
    | some (some v) => { issue with status := v }
    | _ => issue
  match u.priority with
  | some (some v) => { issue with priority := v }
  | _ => issue

/-- Embeds `BaseRepository.update` + `db.commit()` + `db.refresh` for a project.
SQLAlchemy's unit of work emits an UPDATE only when some attribute's new
value differs from its loaded value (net-change detection); only then does
the `onupdate=func.now()` clause refresh `updated_at` to the commit time
`now`. -/
def projectRepository.update (now : Nat) (project : Project) (u : ProjectUpdate) :
    Project :=
  let changed := applyProjectUpdate project u
  if changed = project then project else { changed with updated_at := some now }

/-- Embeds `BaseRepository.update` + commit + refresh for an issue, with the same
net-change semantics for the `updated_at` refresh. -/
def issueRepository.update (now : Nat) (issue : Issue) (u : IssueUpdate) : Issue :=
  let changed := applyIssueUpdate issue u
  if changed = issue then issue else { changed with updated_at := now }

/-- Embeds `BaseRepository.delete` for projects: re-query by id; if found, delete
the row and commit, returning `true`; the `ondelete="CASCADE"` foreign key
on issues removes the project's issues.  Returns `false` when no row
existed. -/
def projectRepository.delete (db : Database) (id : Nat) : Database × Bool :=
  match db.projects.find? (fun p => p.id == id) with
  | some _ =>
      ({ db with
          projects := db.projects.filter (fun p => p.id != id),
          issues := db.issues.filter (fun i => i.project_id != id) }, true)
  | none => (db, false)

/-- Embeds `BaseRepository.delete` for issues. -/
def issueRepository.delete (db : Database) (id : Nat) : Database × Bool :=
  match db.issues.find? (fun i => i.id == id) with
  | some _ => ({ db with issues := db.issues.filter (fun i => i.id != id) }, true)
  | none => (db, false)

/-- Embeds `ProjectService.get_project`: fetch → NotFound when absent → Forbidden
when `project.created_by != user.id` → return the project. -/
def ProjectService.get_project (db : Database) (project_id : Nat) (user : User) :
    Except AppError Project :=
  match projectRepository.get_by_id db project_id with
  | none => .error (.notFound "Project not found")
  | some project =>
      if project.created_by != user.id then
        .error (.forbidden "You don't have access to this project")
      else
        .ok project

/-- Embeds `ProjectService.update_project`: fetch → NotFound → Forbidden →
`model_dump(exclude_unset=True)` + `BaseRepository.update`. -/
def ProjectService.update_project (db : Database) (now : Nat) (project_id : Nat)
    (project_data : ProjectUpdate) (user : User) : Except AppError Project :=
  match projectRepository.get_by_id db project_id with
  | none => .error (.notFound "Project not found")
  | some project =>
      if project.created_by != user.id then
        .error (.forbidden "You don't have permission to update this project")
      else
        .ok (projectRepository.update now project project_data)

/-- Embeds `ProjectService.delete_project`: fetch → NotFound → Forbidden →
cascade delete, returning the repository's success flag. -/
def ProjectService.delete_project (db : Database) (project_id : Nat) (user : User) :
    Except AppError (Database × Bool) :=
  match projectRepository.get_by_id db project_id with
  | none => .error (.notFound "Project not found")
  | some project =>
      if project.created_by != user.id then
        .error (.forbidden "You don't have permission to delete this project")
      else
        .ok (projectRepository.delete db project_id)

/-- Embeds `IssueService.get_project_issues`: verify project exists and is owned by
the user, then delegate to the filtered listing. -/
def IssueService.get_project_issues (db : Database) (project_id : Nat) (user : User)
    (status : Option IssueStatus) (priority : Option IssuePriority) :
    Except AppError (List Issue) :=
  match projectRepository.get_by_id db project_id with
  | none => .error (.notFound "Project not found")
  | some project =>
      if project.created_by != user.id then
        .error (.forbidden "You don't have access to this project")
      else
        .ok (issueRepository.get_project_issues db project_id status priority)

/-- Embeds `IssueService.get_issue`: fetch the issue → NotFound when absent →
resolve the parent project (the source reads `project.created_by` with no
`None` check, so a dangling `project_id` raises AttributeError, modelled as
the `attributeError` outcome) → Forbidden unless the user owns the
project. -/
def IssueService.get_issue (db : Database) (issue_id : Nat) (user : User) :
    Except AppError Issue :=
  match issueRepository.get_by_id db issue_id with
  | none => .error (.notFound "Issue not found")
  | some issue =>
      match projectRepository.get_by_id db issue.project_id with
      | none => .error .attributeError
      | some project =>
          if project.created_by != user.id then
            .error (.forbidden "You don't have access to this issue")
          else
            .ok issue

/-- Creation payload for issues (schemas/issue.py `IssueCreate`): title
required, defaults `OPEN` / `MEDIUM`. -/
structure IssueCreate where
  title : String
  description : Option String := none
  status : IssueStatus := .OPEN
  priority : IssuePriority := .MEDIUM
deriving DecidableEq, Repr

/-- Embeds `IssueService.create_issue`: verify project exists and is owned by the
user, then insert the row (`new_id`, `now` stand for the auto-generated id
and the server timestamps). -/
def IssueService.create_issue (db : Database) (now : Nat) (new_id : Nat)
    (project_id : Nat) (issue_data : IssueCreate) (user : User) :
    Except AppError (Database × Issue) :=
  match projectRepository.get_by_id db project_id with
  | none => .error (.notFound "Project not found")
  | some project =>
      if project.created_by != user.id then
        .error (.forbidden "You don't have permission to create issues in this project")
      else
        let issue : Issue :=
          { id := new_id, project_id := project_id, title := issue_data.title,
            description := issue_data.description, status := issue_data.status,
            priority := issue_data.priority, created_by := user.id,
            created_at := now, updated_at := now }
        .ok ({ db with issues := db.issues ++ [issue] }, issue)

/-- Embeds `IssueService.update_issue`: fetch → NotFound → resolve parent project
(no `None` check in the source) → Forbidden → partial update. -/
def IssueService.update_issue (db : Database) (now : Nat) (issue_id : Nat)
    (issue_data : IssueUpdate) (user : User) : Except AppError Issue :=
  match issueRepository.get_by_id db issue_id with
  | none => .error (.notFound "Issue not found")
  | some issue =>
      match projectRepository.get_by_id db issue.project_id with
      | none => .error .attributeError
      | some project =>
          if project.created_by != user.id then
            .error (.forbidden "You don't have permission to update this issue")
          else
            .ok (issueRepository.update now issue issue_data)

/-- Embeds `IssueService.delete_issue`: fetch → NotFound → resolve parent project
(no `None` check in the source) → Forbidden → delete. -/
def IssueService.delete_issue (db : Database) (issue_id : Nat) (user : User) :
    Except AppError (Database × Bool) :=
  match issueRepository.get_by_id db issue_id with
  | none => .error (.notFound "Issue not found")
  | some issue =>
      match projectRepository.get_by_id db issue.project_id with
      | none => .error .attributeError
      | some project =>
          if project.created_by != user.id then
            .error (.forbidden "You don't have permission to delete this issue")
          else
            .ok (issueRepository.delete db issue_id)

/-- Symbolic model of passlib's `CryptContext(schemes=["bcrypt"]).hash`:
draw a fresh random salt (made explicit as the `salt` argument) and produce
the digest embedding that salt and the one-way image of the plaintext. -/
def CryptContext.hash (salt : Nat) (plain : String) : BcryptDigest :=
  .wellFormed salt plain

/-- Symbolic model of passlib's `CryptContext.verify`: for a recognizable
digest, recompute with the embedded salt and compare (`ok` of the boolean);
for a string that cannot be identified as a bcrypt hash, passlib raises
`UnknownHashError` ("hash could not be identified", a `ValueError`),
modelled as the `error` case. -/
def CryptContext.verify (plain : String) (digest : BcryptDigest) :
    Except String Bool :=
  match digest with
  | .wellFormed _ content => .ok (plain == content)
  | .malformed _ => .error "hash could not be identified"

/-- Embeds `PasswordHandler.hash` (auth/password_handler.py): a direct delegation
to the passlib context. -/
def PasswordHandler.hash (salt : Nat) (plain_password : String) : BcryptDigest :=
  CryptContext.hash salt plain_password

/-- Embeds `PasswordHandler.verify` (auth/password_handler.py): a direct delegation
to the passlib context, with no try/except — a library exception
propagates. -/
def PasswordHandler.verify (plain_password : String) (hashed_password : BcryptDigest) :
    Except String Bool :=
  CryptContext.verify plain_password hashed_password

/-- JWT claim set the application puts in tokens: `sub` (email) and
`user_id`, each possibly missing since `create_token` accepts an arbitrary
dict. -/
structure TokenData where
  sub : Option String
  user_id : Option Nat
deriving DecidableEq, Repr

/-- Symbolic HMAC signature over the payload (spec §4.2: the whole payload
is signed with the symmetric key, so any tampering with claims or expiry
invalidates the signature).  Idealized MAC: the signature is determined by,
and only constructible from, the secret key together with the signed
content. -/
structure JwtSignature where
  secret_key : String
  data : TokenData
  exp : Nat
deriving DecidableEq, Repr

/-- A structurally well-formed JWT: payload claims, expiry claim, and
signature segment. -/
structure Jwt where
  data : TokenData
  exp : Nat
  sig : JwtSignature
deriving DecidableEq, Repr

/-- A token string on the wire: either the serialization of a structurally
well-formed JWT, or an arbitrary malformed string. -/
inductive TokenWire
  | token (t : Jwt)
  | garbage (raw : String)
deriving DecidableEq, Repr

/-- Embeds `jose.jwt.encode(payload, secret_key, algorithm)`: sign the payload
(claims plus `exp`) with the symmetric key. -/
def jose.encode (payload : TokenData) (exp : Nat) (secret_key : String) : Jwt :=
  { data := payload, exp := exp,
    sig := { secret_key := secret_key, data := payload, exp := exp } }

/-- Embeds `jose.jwt.decode(token, secret_key, algorithms)`: recompute the
signature over the untrusted payload and compare with the embedded
signature, then check expiry; per spec §4.2 the verifier rejects when the
signature mismatches or `now ≥ exp`.  Malformed input and failed checks
raise `JWTError` inside the library, which `TokenHandler.decode_token`
converts to `None`; we fuse the two and return `none` directly. -/
def jose.decode (w : TokenWire) (secret_key : String) (now : Nat) :
    Option (TokenData × Nat) :=
  match w with
  | .garbage _ => none
  | .token t =>
      if t.sig = { secret_key := secret_key, data := t.data, exp := t.exp } ∧ now < t.exp then
        some (t.data, t.exp)
      else
        none

/-- Embeds `TokenHandler.create_token` (auth/token_handler.py): copy the claims,
compute `exp = now + expires_delta` (or `now + default_expire_minutes`
converted to ticks when no override is given), add the `exp` claim and
sign. -/
def TokenHandler.create_token (secret_key : String) (data : TokenData) (now : Nat)
    (expires_delta : Option Nat) (default_expire_minutes : Nat) : Jwt :=
  let expire := match expires_delta with
    | some d => now + d
    | none => now + default_expire_minutes * 60
  jose.encode data expire secret_key

/-- Embeds `TokenHandler.decode_token`: delegate to the library and turn any
`JWTError` (invalid signature, expired, malformed) into `None` — the
function is total and never raises. -/
def TokenHandler.decode_token (secret_key : String) (now : Nat) (w : TokenWire) :
    Option (TokenData × Nat) :=
  jose.decode w secret_key now

/-- Embeds `AuthService.login` (services/auth.py): look up by email; absent →
Unauthorized "Invalid email or password"; password verification false →
the same Unauthorized outcome; a passlib exception propagates; on success
issue a token with `{"sub": user.email, "user_id": user.id}` and the
configured TTL. -/
def AuthService.login (db : Database) (email : String) (password : String)
    (secret_key : String) (now : Nat) (access_token_expire_minutes : Nat) :
    Except AppError Jwt :=
  match userRepository.get_by_email db email with
  | none => .error (.unauthorized "Invalid email or password")
  | some user =>
      match PasswordHandler.verify password user.hashed_password with
      | .error e => .error (.valueError e)
      | .ok false => .error (.unauthorized "Invalid email or password")
      | .ok true =>
          .ok (TokenHandler.create_token secret_key
                ⟨some user.email, some user.id⟩ now
                (some (access_token_expire_minutes * 60))
                access_token_expire_minutes)

/-- Embeds `Auth.__call__` (auth_deps.py): decode the bearer token (`None` →
Unauthorized "Invalid authentication token"), read `payload.get("sub")`
(`None` → Unauthorized "Invalid token payload"), then look the user up by
email (`None` → Unauthorized "User not found"). -/
def Auth.call (db : Database) (secret_key : String) (now : Nat) (w : TokenWire) :
    Except AppError User :=
  match TokenHandler.decode_token secret_key now w with
  | none => .error (.unauthorized "Invalid authentication token")
  | some (payload, _) =>
      match payload.sub with
      | none => .error (.unauthorized "Invalid token payload")
      | some user_email =>
          match db.users.find? (fun u => u.email == user_email) with
          | none => .error (.unauthorized "User not found")
          | some user => .ok user

/-- Concrete user fixture for witnesses (mirrors the spec's scenario user). -/
def alice : User :=
  { id := 1, name := "Alice", email := "alice@x.com",
    hashed_password := .wellFormed 0 "pw123456" }

/-- Concrete second user fixture (a non-owner). -/
def mallory : User :=
  { id := 2, name := "Mallory", email := "mallory@x.com",
    hashed_password := .wellFormed 1 "pw2secret" }

/-- Concrete project fixture owned by `alice`. -/
def sampleProject : Project :=
  { id := 10, name := "P1", description := some "old", created_by := 1,
    created_at := 0, updated_at := none }

/-- Concrete issue fixture inside `sampleProject`. -/
def sampleIssue : Issue :=
  { id := 100, project_id := 10, title := "Bug", description := none,
    status := .OPEN, priority := .MEDIUM, created_by := 1,
    created_at := 3, updated_at := 3 }

/-- Concrete database fixture for witnesses. -/
def sampleDb : Database :=
  { users := [alice], projects := [sampleProject], issues := [sampleIssue] }

/-- The result is the Forbidden outcome (a 403 with some detail string and
no entity data). -/
def isForbidden {α : Type} (r : Except AppError α) : Prop :=
  ∃ d, r = .error (.forbidden d)

/-- C6 counterexample: on a string that is not a well-formed bcrypt digest,
`PasswordHandler.verify` propagates the passlib `UnknownHashError`
(a `ValueError`) instead of returning `false` — the claim's
"returns false and never raises an exception" fails at this input. -/
theorem verify_malformed_digest_raises_cex :
    PasswordHandler.verify "password123" (.malformed "notahash") ≠ .ok false ∧
    PasswordHandler.verify "password123" (.malformed "notahash") =
      .error "hash could not be identified" := by
  constructor
  · simp [PasswordHandler.verify, CryptContext.verify]
  · rfl

/-- C6 (amended): for a well-formed bcrypt digest that does not match the
plaintext, `verify` returns `false` and does not raise; for a malformed
digest string it raises (propagates the library's error) rather than
returning `false`. -/
theorem verify_wellformed_false_malformed_raises (plain content raw : String)
    (salt : Nat) (h : plain ≠ content) :
    PasswordHandler.verify plain (.wellFormed salt content) = .ok false ∧
    PasswordHandler.verify plain (.malformed raw) =
      .error "hash could not be identified" := by
  constructor
  · simp [PasswordHandler.verify, CryptContext.verify, h]
  · rfl

/-- C6 witness: the amended theorem at a concrete non-matching plaintext. -/
theorem verify_wellformed_false_malformed_raises_witness :
    PasswordHandler.verify "wrongpw" (.wellFormed 0 "pw123456") = .ok false ∧
    PasswordHandler.verify "wrongpw" (.malformed "notahash") =
      .error "hash could not be identified" :=
  verify_wellformed_false_malformed_raises "wrongpw" "pw123456" "notahash" 0
    (by decide)

/-- C7: for every plaintext `p`, `verify p (hash p) = true`; and two calls
of `hash` on the identical input with distinct fresh salts (bcrypt draws a
fresh random salt per call) produce different digests, each of which still
verifies against `p`. -/
theorem hash_verify_roundtrip_fresh_salts (p : String) (salt1 salt2 : Nat)
    (hfresh : salt1 ≠ salt2) :
    PasswordHandler.verify p (PasswordHandler.hash salt1 p) = .ok true ∧
    PasswordHandler.hash salt1 p ≠ PasswordHandler.hash salt2 p ∧
    PasswordHandler.verify p (PasswordHandler.hash salt2 p) = .ok true := by
  refine ⟨?_, ?_, ?_⟩
  · simp [PasswordHandler.verify, PasswordHandler.hash, CryptContext.verify,
      CryptContext.hash]
  · simp [PasswordHandler.hash, CryptContext.hash, hfresh]
  · simp [PasswordHandler.verify, PasswordHandler.hash, CryptContext.verify,
      CryptContext.hash]

/-- C7 witness: the round trip at a concrete password and two concrete
fresh salts. -/
theorem hash_verify_roundtrip_fresh_salts_witness :
    PasswordHandler.verify "pw123456" (PasswordHandler.hash 0 "pw123456") = .ok true ∧
    PasswordHandler.hash 0 "pw123456" ≠ PasswordHandler.hash 1 "pw123456" ∧
    PasswordHandler.verify "pw123456" (PasswordHandler.hash 1 "pw123456") = .ok true :=
  hash_verify_roundtrip_fresh_salts "pw123456" 0 1 (by decide)

/-- C5: login with an unknown email and login with a known email but a
failing password verification produce the exact same Unauthorized outcome
(same error constructor, same detail string "Invalid email or password"),
so the two failure causes are indistinguishable to the caller; when the
password verifies, a token is issued for the user. -/
theorem login_failure_indistinguishable (db : Database)
    (email password secret : String) (now mins : Nat) :
    (userRepository.get_by_email db email = none →
      AuthService.login db email password secret now mins =
        .error (.unauthorized "Invalid email or password")) ∧
    (∀ u, userRepository.get_by_email db email = some u →
      PasswordHandler.verify password u.hashed_password = .ok false →
      AuthService.login db email password secret now mins =
        .error (.unauthorized "Invalid email or password")) ∧
    (∀ u, userRepository.get_by_email db email = some u →
      PasswordHandler.verify password u.hashed_password = .ok true →
      AuthService.login db email password secret now mins =
        .ok (TokenHandler.create_token secret ⟨some u.email, some u.id⟩ now
              (some (mins * 60)) mins)) := by
  refine ⟨?_, ?_, ?_⟩
  · intro h
    simp [AuthService.login, h]
  · intro u hu hv
    simp [AuthService.login, hu, hv]
  · intro u hu hv
    simp [AuthService.login, hu, hv]

/-- C5 witness: on the concrete fixture database, the unknown-email failure
and the wrong-password failure are the very same outcome, and the correct
password yields a token. -/
theorem login_failure_indistinguishable_witness :
    AuthService.login sampleDb "nobody@x.com" "pw123456" "secret" 0 30 =
      .error (.unauthorized "Invalid email or password") ∧
    AuthService.login sampleDb "alice@x.com" "wrongpw" "secret" 0 30 =
      .error (.unauthorized "Invalid email or password") ∧
    AuthService.login sampleDb "alice@x.com" "pw123456" "secret" 0 30 =
      .ok (TokenHandler.create_token "secret" ⟨some "alice@x.com", some 1⟩ 0
            (some 1800) 30) := by
  have h1 := login_failure_indistinguishable sampleDb "nobody@x.com" "pw123456"
    "secret" 0 30
  have h2 := login_failure_indistinguishable sampleDb "alice@x.com" "wrongpw"
    "secret" 0 30
  have h3 := login_failure_indistinguishable sampleDb "alice@x.com" "pw123456"
    "secret" 0 30
  refine ⟨h1.1 (by decide), h2.2.1 alice (by decide) (by rfl), ?_⟩
  have := h3.2.2 alice (by decide) (by rfl)
  simpa [alice] using this

/-- C4: verifying a token produced by `create_token(claims, ttl)` returns
the original claims (paired with the embedded expiry) whenever verification
happens strictly before expiry; it returns the typed failure `none` at or
after expiry; it returns `none` for any token whose claims or expiry were
altered while keeping the original signature, for any token whose signature
was replaced by one differing from the honest signature, and for any
malformed token string.  `decode_token` is a total function into `Option`
(the source wraps the library call in try/except and returns `None`), so
verification never raises. -/
theorem token_roundtrip_expiry_tamper (secret : String) (claims : TokenData)
    (ttl issued now dmin : Nat) :
    (now < issued + ttl →
      TokenHandler.decode_token secret now
        (.token (TokenHandler.create_token secret claims issued (some ttl) dmin)) =
        some (claims, issued + ttl)) ∧
    (issued + ttl ≤ now →
      TokenHandler.decode_token secret now
        (.token (TokenHandler.create_token secret claims issued (some ttl) dmin)) =
        none) ∧
    (∀ t' : Jwt,
      t'.sig = (TokenHandler.create_token secret claims issued (some ttl) dmin).sig →
      t'.data ≠ claims ∨ t'.exp ≠ issued + ttl →
      TokenHandler.decode_token secret now (.token t') = none) ∧
    (∀ s' : JwtSignature,
      s' ≠ (TokenHandler.create_token secret claims issued (some ttl) dmin).sig →
      TokenHandler.decode_token secret now
        (.token { data := claims, exp := issued + ttl, sig := s' }) = none) ∧
    (∀ raw : String, TokenHandler.decode_token secret now (.garbage raw) = none) := by
  refine ⟨?_, ?_, ?_, ?_, ?_⟩
  · intro h
    simp [TokenHandler.decode_token, TokenHandler.create_token, jose.encode,
      jose.decode, h]
  · intro h
    simp [TokenHandler.decode_token, TokenHandler.create_token, jose.encode,
      jose.decode]
    omega
  · rintro ⟨d', e', s'⟩ hsig hne
    simp [TokenHandler.create_token, jose.encode] at hsig
    subst hsig
    simp [TokenHandler.decode_token, jose.decode, JwtSignature.mk.injEq]
    rintro hd he
    rcases hne with h | h
    · exact absurd hd.symm h
    · exact absurd he.symm h
  · intro s' hs
    simp [TokenHandler.create_token, jose.encode] at hs
    simp [TokenHandler.decode_token, jose.decode]
    intro h
    exact absurd h hs
  · intro raw
    rfl

/-- C4 witness: a concrete token round trip before expiry, the typed
failure after expiry, and the typed failure on a token whose subject claim
was altered under the original signature. -/
theorem token_roundtrip_expiry_tamper_witness :
    TokenHandler.decode_token "secret" 5
      (.token (TokenHandler.create_token "secret" ⟨some "alice@x.com", some 1⟩ 0
        (some 10) 30)) = some (⟨some "alice@x.com", some 1⟩, 10) ∧
    TokenHandler.decode_token "secret" 12
      (.token (TokenHandler.create_token "secret" ⟨some "alice@x.com", some 1⟩ 0
        (some 10) 30)) = none ∧
    TokenHandler.decode_token "secret" 5
      (.token { data := ⟨some "mallory@x.com", some 1⟩
                exp := 10
                sig := (TokenHandler.create_token "secret"
                          ⟨some "alice@x.com", some 1⟩ 0 (some 10) 30).sig }) =
      none := by
  have h1 := token_roundtrip_expiry_tamper "secret" ⟨some "alice@x.com", some 1⟩
    10 0 5 30
  have h2 := token_roundtrip_expiry_tamper "secret" ⟨some "alice@x.com", some 1⟩
    10 0 12 30
  exact ⟨h1.1 (by decide), h2.2.1 (by decide),
    h1.2.2.1 _ rfl (Or.inl (by decide))⟩

/-- C9: when the bearer token decodes successfully but its subject email
matches no user record (e.g. the user was deleted after issuance), the
authentication dependency yields Unauthorized (401) with detail
"User not found"; when the decoded payload lacks a subject claim it yields
Unauthorized with detail "Invalid token payload"; and on no input does the
dependency ever yield the NotFound outcome. -/
theorem auth_dep_unauthorized_not_notfound (db : Database) (secret : String)
    (now : Nat) (w : TokenWire) (payload : TokenData) (e : Nat)
    (hdec : TokenHandler.decode_token secret now w = some (payload, e)) :
    (∀ email, payload.sub = some email →
      db.users.find? (fun u => u.email == email) = none →
      Auth.call db secret now w = .error (.unauthorized "User not found")) ∧
    (payload.sub = none →
      Auth.call db secret now w = .error (.unauthorized "Invalid token payload")) ∧
    (∀ d, Auth.call db secret now w ≠ .error (.notFound d)) := by
  refine ⟨?_, ?_, ?_⟩
  · intro email hsub hfind
    simp [Auth.call, hdec, hsub, hfind]
  · intro hsub
    simp [Auth.call, hdec, hsub]
  · intro d
    simp only [Auth.call, hdec]
    rcases payload.sub with _ | email
    · simp
    · cases hf : List.find? (fun u => u.email == email) db.users <;> simp [hf]

/-- C9 witness: a valid token for a deleted user on an empty user table
yields the 401 "User not found", and a valid token without a subject claim
yields the 401 "Invalid token payload". -/
theorem auth_dep_unauthorized_not_notfound_witness :
    Auth.call { users := [], projects := [], issues := [] } "secret" 5
      (.token (TokenHandler.create_token "secret" ⟨some "gone@x.com", some 7⟩ 0
        (some 10) 30)) = .error (.unauthorized "User not found") ∧
    Auth.call sampleDb "secret" 5
      (.token (TokenHandler.create_token "secret" ⟨none, some 7⟩ 0
        (some 10) 30)) = .error (.unauthorized "Invalid token payload") := by
  have h1 := auth_dep_unauthorized_not_notfound
    { users := [], projects := [], issues := [] } "secret" 5
    (.token (TokenHandler.create_token "secret" ⟨some "gone@x.com", some 7⟩ 0
      (some 10) 30)) ⟨some "gone@x.com", some 7⟩ 10 (by decide)
  have h2 := auth_dep_unauthorized_not_notfound sampleDb "secret" 5
    (.token (TokenHandler.create_token "secret" ⟨none, some 7⟩ 0
      (some 10) 30)) ⟨none, some 7⟩ 10 (by decide)
  exact ⟨h1.1 "gone@x.com" rfl rfl, h2.2.1 rfl⟩

/-- C1: for every project `P` reachable in the store and every user `U`
with `P.created_by ≠ U.id` (the model's `owner_id` column is named
`created_by`), every access path that reaches the existing entity yields
the Forbidden outcome for `U`: reading, updating and deleting `P`, listing
`P`'s issues under any filters, creating an issue in `P`, and reading,
updating and deleting any issue belonging to `P`. -/
theorem ownership_forbidden_all_paths (db : Database) (project_id : Nat)
    (P : Project) (U : User)
    (hP : projectRepository.get_by_id db project_id = some P)
    (hown : P.created_by ≠ U.id) :
    isForbidden (ProjectService.get_project db project_id U) ∧
    (∀ now u, isForbidden (ProjectService.update_project db now project_id u U)) ∧
    isForbidden (ProjectService.delete_project db project_id U) ∧
    (∀ st pr, isForbidden (IssueService.get_project_issues db project_id U st pr)) ∧
    (∀ now nid d, isForbidden (IssueService.create_issue db now nid project_id d U)) ∧
    (∀ issue_id I, issueRepository.get_by_id db issue_id = some I →
      I.project_id = project_id →
      isForbidden (IssueService.get_issue db issue_id U) ∧
      (∀ now u, isForbidden (IssueService.update_issue db now issue_id u U)) ∧
      isForbidden (IssueService.delete_issue db issue_id U)) := by
  have hbne : (P.created_by != U.id) = true := bne_iff_ne.mpr hown
  refine ⟨?_, ?_, ?_, ?_, ?_, ?_⟩
  · exact ⟨"You don't have access to this project",
      by simp [ProjectService.get_project, hP, hbne]⟩
  · intro now u
    exact ⟨"You don't have permission to update this project",
      by simp [ProjectService.update_project, hP, hbne]⟩
  · exact ⟨"You don't have permission to delete this project",
      by simp [ProjectService.delete_project, hP, hbne]⟩
  · intro st pr
    exact ⟨"You don't have access to this project",
      by simp [IssueService.get_project_issues, hP, hbne]⟩
  · intro now nid d
    exact ⟨"You don't have permission to create issues in this project",
      by simp [IssueService.create_issue, hP, hbne]⟩
  · intro issue_id I hI hpid
    refine ⟨?_, ?_, ?_⟩
    · exact ⟨"You don't have access to this issue",
        by simp [IssueService.get_issue, hI, hpid, hP, hbne]⟩
    · intro now u
      exact ⟨"You don't have permission to update this issue",
        by simp [IssueService.update_issue, hI, hpid, hP, hbne]⟩
    · exact ⟨"You don't have permission to delete this issue",
        by simp [IssueService.delete_issue, hI, hpid, hP, hbne]⟩

/-- C1 witness: on the concrete fixture store, the non-owner `mallory` is
Forbidden on a direct project read, on the nested issue listing, on an
issue read, and on a project delete. -/
theorem ownership_forbidden_all_paths_witness :
    isForbidden (ProjectService.get_project sampleDb 10 mallory) ∧
    isForbidden (IssueService.get_project_issues sampleDb 10 mallory none none) ∧
    isForbidden (IssueService.get_issue sampleDb 100 mallory) ∧
    isForbidden (ProjectService.delete_project sampleDb 10 mallory) := by
  have h := ownership_forbidden_all_paths sampleDb 10 sampleProject mallory
    (by decide) (by decide)
  exact ⟨h.1, h.2.2.2.1 none none,
    (h.2.2.2.2.2 100 sampleIssue (by decide) (by decide)).1, h.2.2.1⟩

/-- C2: project authorization yields NotFound when no project row with the
requested id exists — for every user, so existence is decided before
ownership — and yields Forbidden when the row exists but its owner differs
from the caller; in both cases the result is exactly the error constructor
with its fixed detail string, carrying no entity data.  Stated for the two
project-authorizing reads cited by the spec: direct project fetch and the
nested issue listing. -/
theorem project_auth_notfound_then_forbidden (db : Database) (project_id : Nat)
    (user : User) :
    (projectRepository.get_by_id db project_id = none →
      ProjectService.get_project db project_id user =
        .error (.notFound "Project not found") ∧
      ∀ st pr, IssueService.get_project_issues db project_id user st pr =
        .error (.notFound "Project not found")) ∧
    (∀ project, projectRepository.get_by_id db project_id = some project →
      project.created_by ≠ user.id →
      ProjectService.get_project db project_id user =
        .error (.forbidden "You don't have access to this project") ∧
      ∀ st pr, IssueService.get_project_issues db project_id user st pr =
        .error (.forbidden "You don't have access to this project")) := by
  constructor
  · intro h
    constructor
    · simp [ProjectService.get_project, h]
    · intro st pr
      simp [IssueService.get_project_issues, h]
  · intro project hsome hne
    have hbne : (project.created_by != user.id) = true := bne_iff_ne.mpr hne
    constructor
    · simp [ProjectService.get_project, hsome, hbne]
    · intro st pr
      simp [IssueService.get_project_issues, hsome, hbne]

/-- C2 witness: on the concrete fixture store, a missing project id yields
NotFound and an existing project of another owner yields Forbidden, in both
cases the bare constructor with its detail string. -/
theorem project_auth_notfound_then_forbidden_witness :
    ProjectService.get_project sampleDb 99 mallory =
      .error (.notFound "Project not found") ∧
    ProjectService.get_project sampleDb 10 mallory =
      .error (.forbidden "You don't have access to this project") := by
  have h1 := project_auth_notfound_then_forbidden sampleDb 99 mallory
  have h2 := project_auth_notfound_then_forbidden sampleDb 10 mallory
  exact ⟨(h1.1 (by decide)).1,
    (h2.2 sampleProject (by decide) (by decide)).1⟩

/-- The committed project update is the field application with some value
of `updated_at` (unchanged when no attribute changed, the commit time
otherwise). -/
lemma projectUpdate_eq_apply (now : Nat) (p : Project)
    (u : ProjectUpdate) :
    ∃ ua, projectRepository.update now p u =
      { applyProjectUpdate p u with updated_at := ua } := by
  unfold projectRepository.update
  by_cases h : applyProjectUpdate p u = p
  · exact ⟨p.updated_at, by rw [if_pos h, h]⟩
  · exact ⟨some now, by rw [if_neg h]⟩

/-- The committed issue update is the field application with some value of
`updated_at`. -/
lemma issueUpdate_eq_apply (now : Nat) (i : Issue) (v : IssueUpdate) :
    ∃ ua, issueRepository.update now i v =
      { applyIssueUpdate i v with updated_at := ua } := by
  unfold issueRepository.update
  by_cases h : applyIssueUpdate i v = i
  · exact ⟨i.updated_at, by rw [if_pos h, h]⟩
  · exact ⟨now, by rw [if_neg h]⟩

lemma projectUpdate_name (now : Nat) (p : Project) (u : ProjectUpdate) :
    (projectRepository.update now p u).name =
      match u.name with | some (some s) => s | _ => p.name := by
  obtain ⟨ua, h⟩ := projectUpdate_eq_apply now p u
  rw [h]
  rcases u with ⟨un, ud⟩
  unfold applyProjectUpdate
  rcases un with _ | _ | s <;> rcases ud with _ | _ | d <;> rfl

lemma projectUpdate_description (now : Nat) (p : Project)
    (u : ProjectUpdate) :
    (projectRepository.update now p u).description =
      match u.description with | some (some s) => some s | _ => p.description := by
  obtain ⟨ua, h⟩ := projectUpdate_eq_apply now p u
  rw [h]
  rcases u with ⟨un, ud⟩
  unfold applyProjectUpdate
  rcases un with _ | _ | s <;> rcases ud with _ | _ | d <;> rfl

lemma projectUpdate_frame (now : Nat) (p : Project) (u : ProjectUpdate) :
    (projectRepository.update now p u).id = p.id ∧
    (projectRepository.update now p u).created_by = p.created_by ∧
    (projectRepository.update now p u).created_at = p.created_at := by
  obtain ⟨ua, h⟩ := projectUpdate_eq_apply now p u
  rw [h]
  rcases u with ⟨un, ud⟩
  unfold applyProjectUpdate
  rcases un with _ | _ | s <;> rcases ud with _ | _ | d <;> exact ⟨rfl, rfl, rfl⟩

lemma issueUpdate_title (now : Nat) (i : Issue) (v : IssueUpdate) :
    (issueRepository.update now i v).title =
      match v.title with | some (some s) => s | _ => i.title := by
  obtain ⟨ua, h⟩ := issueUpdate_eq_apply now i v
  rw [h]
  rcases v with ⟨vt, vd, vs, vp⟩
  unfold applyIssueUpdate
  rcases vt with _ | _ | a <;> rcases vd with _ | _ | b <;>
    rcases vs with _ | _ | c <;> rcases vp with _ | _ | d <;> rfl

lemma issueUpdate_description (now : Nat) (i : Issue) (v : IssueUpdate) :
    (issueRepository.update now i v).description =
      match v.description with | some (some s) => some s | _ => i.description := by
  obtain ⟨ua, h⟩ := issueUpdate_eq_apply now i v
  rw [h]
  rcases v with ⟨vt, vd, vs, vp⟩
  unfold applyIssueUpdate
  rcases vt with _ | _ | a <;> rcases vd with _ | _ | b <;>
    rcases vs with _ | _ | c <;> rcases vp with _ | _ | d <;> rfl

lemma issueUpdate_status (now : Nat) (i : Issue) (v : IssueUpdate) :
    (issueRepository.update now i v).status =
      match v.status with | some (some s) => s | _ => i.status := by
  obtain ⟨ua, h⟩ := issueUpdate_eq_apply now i v
  rw [h]
  rcases v with ⟨vt, vd, vs, vp⟩
  unfold applyIssueUpdate
  rcases vt with _ | _ | a <;> rcases vd with _ | _ | b <;>
    rcases vs with _ | _ | c <;> rcases vp with _ | _ | d <;> rfl

lemma issueUpdate_priority (now : Nat) (i : Issue) (v : IssueUpdate) :
    (issueRepository.update now i v).priority =
      match v.priority with | some (some s) => s | _ => i.priority := by
  obtain ⟨ua, h⟩ := issueUpdate_eq_apply now i v
  rw [h]
  rcases v with ⟨vt, vd, vs, vp⟩
  unfold applyIssueUpdate
  rcases vt with _ | _ | a <;> rcases vd with _ | _ | b <;>
    rcases vs with _ | _ | c <;> rcases vp with _ | _ | d <;> rfl

lemma issueUpdate_frame (now : Nat) (i : Issue) (v : IssueUpdate) :
    (issueRepository.update now i v).id = i.id ∧
    (issueRepository.update now i v).project_id = i.project_id ∧
    (issueRepository.update now i v).created_by = i.created_by ∧
    (issueRepository.update now i v).created_at = i.created_at := by
  obtain ⟨ua, h⟩ := issueUpdate_eq_apply now i v
  rw [h]
  rcases v with ⟨vt, vd, vs, vp⟩
  unfold applyIssueUpdate
  rcases vt with _ | _ | a <;> rcases vd with _ | _ | b <;>
    rcases vs with _ | _ | c <;> rcases vp with _ | _ | d <;>
    exact ⟨rfl, rfl, rfl, rfl⟩

/-- C3 counterexample: a partial-update payload whose `description` field is
explicitly present with a null value leaves the entity's `description`
untouched — the field is present in the payload yet is not applied, so
"update applies exactly the fields explicitly present in the payload" fails
at this input (absent and explicitly-null fields are treated alike: both
skipped by the repository's `is not None` guard). -/
theorem update_explicit_null_not_applied_cex :
    (({ description := some none } : ProjectUpdate)).description = some none ∧
    projectRepository.update 5 sampleProject { description := some none } =
      sampleProject ∧
    (projectRepository.update 5 sampleProject
      { description := some none }).description = some "old" := by
  refine ⟨rfl, ?_, ?_⟩ <;> decide

/-- C3 (amended): update applies exactly the fields explicitly present in
the payload **with a non-null value**; a field absent from the payload and
a field explicitly present with a null value are both left untouched, and
all fields outside the payload retain their previous values (shown for the
project update: `name`, `description`, and the frame `id`, `created_by`,
`created_at`; and for the issue update: `title`, `description`, `status`,
`priority`, and the frame `id`, `project_id`, `created_by`,
`created_at`). -/
theorem update_applies_nonnull_present_fields (now : Nat) (p : Project)
    (u : ProjectUpdate) (i : Issue) (v : IssueUpdate) :
    (∀ s, u.name = some (some s) → (projectRepository.update now p u).name = s) ∧
    (u.name = none ∨ u.name = some none →
      (projectRepository.update now p u).name = p.name) ∧
    (∀ s, u.description = some (some s) →
      (projectRepository.update now p u).description = some s) ∧
    (u.description = none ∨ u.description = some none →
      (projectRepository.update now p u).description = p.description) ∧
    (projectRepository.update now p u).id = p.id ∧
    (projectRepository.update now p u).created_by = p.created_by ∧
    (projectRepository.update now p u).created_at = p.created_at ∧
    (∀ s, v.status = some (some s) → (issueRepository.update now i v).status = s) ∧
    (v.status = none ∨ v.status = some none →
      (issueRepository.update now i v).status = i.status) ∧
    (∀ s, v.priority = some (some s) →
      (issueRepository.update now i v).priority = s) ∧
    (v.priority = none ∨ v.priority = some none →
      (issueRepository.update now i v).priority = i.priority) ∧
    (∀ s, v.title = some (some s) → (issueRepository.update now i v).title = s) ∧
    (v.title = none ∨ v.title = some none →
      (issueRepository.update now i v).title = i.title) ∧
    (∀ s, v.description = some (some s) →
      (issueRepository.update now i v).description = some s) ∧
    (v.description = none ∨ v.description = some none →
      (issueRepository.update now i v).description = i.description) ∧
    (issueRepository.update now i v).id = i.id ∧
    (issueRepository.update now i v).project_id = i.project_id ∧
    (issueRepository.update now i v).created_by = i.created_by ∧
    (issueRepository.update now i v).created_at = i.created_at := by
  obtain ⟨hpid, hpby, hpat⟩ := projectUpdate_frame now p u
  obtain ⟨hiid, hipr, hiby, hiat⟩ := issueUpdate_frame now i v
  refine ⟨?_, ?_, ?_, ?_, hpid, hpby, hpat, ?_, ?_, ?_, ?_, ?_, ?_, ?_, ?_,
    hiid, hipr, hiby, hiat⟩
  · intro s hs
    rw [projectUpdate_name, hs]
  · rintro (h | h) <;> rw [projectUpdate_name, h]
  · intro s hs
    rw [projectUpdate_description, hs]
  · rintro (h | h) <;> rw [projectUpdate_description, h]
  · intro s hs
    rw [issueUpdate_status, hs]
  · rintro (h | h) <;> rw [issueUpdate_status, h]
  · intro s hs
    rw [issueUpdate_priority, hs]
  · rintro (h | h) <;> rw [issueUpdate_priority, h]
  · intro s hs
    rw [issueUpdate_title, hs]
  · rintro (h | h) <;> rw [issueUpdate_title, h]
  · intro s hs
    rw [issueUpdate_description, hs]
  · rintro (h | h) <;> rw [issueUpdate_description, h]

/-- C3 witness: a concrete payload sending `name` with a value and
`description` with an explicit null updates exactly `name`, keeps
`description`, and keeps the frame fields; likewise a concrete issue
payload updating only `status`. -/
theorem update_applies_nonnull_present_fields_witness :
    (projectRepository.update 7 sampleProject
      { name := some (some "P1-renamed"), description := some none }).name =
      "P1-renamed" ∧
    (projectRepository.update 7 sampleProject
      { name := some (some "P1-renamed"), description := some none }).description =
      some "old" ∧
    (projectRepository.update 7 sampleProject
      { name := some (some "P1-renamed"), description := some none }).created_by =
      1 ∧
    (issueRepository.update 7 sampleIssue
      { status := some (some .CLOSED) }).status = .CLOSED ∧
    (issueRepository.update 7 sampleIssue
      { status := some (some .CLOSED) }).priority = .MEDIUM := by
  have h := update_applies_nonnull_present_fields 7 sampleProject
    { name := some (some "P1-renamed"), description := some none } sampleIssue
    { status := some (some .CLOSED) }
  refine ⟨h.1 "P1-renamed" rfl, ?_, ?_, h.2.2.2.2.2.2.2.1 .CLOSED rfl, ?_⟩
  · have := h.2.2.2.1 (Or.inr rfl)
    simpa [sampleProject] using this
  · have := h.2.2.2.2.2.1
    simpa [sampleProject] using this
  · have := h.2.2.2.2.2.2.2.2.2.2.1 (Or.inl rfl)
    simpa [sampleIssue] using this

/-- C8: applying the partial update `{status: "Closed"}` twice in
succession (at commit times `t1` then `t2`) yields the same final entity
state as applying it once, and neither application alters fields outside
the payload such as `priority` or `created_at`.  The second application
changes no attribute, so SQLAlchemy emits no UPDATE and `updated_at` is not
refreshed again. -/
theorem patch_closed_idempotent (i : Issue) (t1 t2 : Nat) :
    issueRepository.update t2
      (issueRepository.update t1 i { status := some (some .CLOSED) })
      { status := some (some .CLOSED) } =
      issueRepository.update t1 i { status := some (some .CLOSED) } ∧
    (issueRepository.update t1 i { status := some (some .CLOSED) }).priority =
      i.priority ∧
    (issueRepository.update t1 i { status := some (some .CLOSED) }).created_at =
      i.created_at ∧
    (issueRepository.update t2
      (issueRepository.update t1 i { status := some (some .CLOSED) })
      { status := some (some .CLOSED) }).priority = i.priority ∧
    (issueRepository.update t2
      (issueRepository.update t1 i { status := some (some .CLOSED) })
      { status := some (some .CLOSED) }).created_at = i.created_at := by
  rcases i with ⟨id, pid, ti, de, st, pr, cb, ca, ua⟩
  cases st <;>
    simp [issueRepository.update, applyIssueUpdate, Issue.mk.injEq]

/-- Conjunction of the status / priority / project filters of
`IssueRepository.get_project_issues`: an issue matches iff it belongs to the
project and satisfies each filter that was provided. -/
def matchesIssueFilters (project_id : Nat) (status : Option IssueStatus)
    (priority : Option IssuePriority) (i : Issue) : Bool :=
  (i.project_id == project_id) &&
  (match status with | some s => i.status == s | none => true) &&
  (match priority with | some p => i.priority == p | none => true)

/-- C10: for every project and every combination of the optional status and
priority filters, the issue listing is a permutation of exactly the issues
matching the filters, sorted by `created_at` in descending order (newest
first). -/
theorem issues_listing_filtered_sorted (db : Database) (project_id : Nat)
    (status : Option IssueStatus) (priority : Option IssuePriority) :
    (issueRepository.get_project_issues db project_id status priority).Perm
      (db.issues.filter (matchesIssueFilters project_id status priority)) ∧
    List.Sorted createdDesc
      (issueRepository.get_project_issues db project_id status priority) := by
  constructor
  · unfold issueRepository.get_project_issues
    cases status <;> cases priority <;>
      refine (List.perm_insertionSort createdDesc _).trans (List.Perm.of_eq ?_) <;>
      · simp only [List.filter_filter]
        exact List.filter_congr (fun a _ => by
          simp [matchesIssueFilters, Bool.and_comm, Bool.and_left_comm,
            Bool.and_assoc])
  · unfold issueRepository.get_project_issues
    cases status <;> cases priority <;>
      exact List.sorted_insertionSort createdDesc _

end MiniIssueTracker
